import Mathlib

/-!
# VibraFrame Face Detection service — verification of the spec against the code

Shallow embedding of `src/python_api/main.py`.  The service is a thin FastAPI
wrapper: `GET /` returns a static payload; `POST /detect-face` checks the
declared content-type, reads and decodes the upload, converts it to RGB,
invokes the external mediapipe face-detection capability, and maps the first
detection to a center-point payload.

External capabilities (the HTTP file read, PIL decode, and the mediapipe
detection call) are modelled as components of an `Env` record, each returning
`Except String _` to reflect that the corresponding Python call may raise an
exception carrying a message.  Python dict responses are modelled by a small
JSON AST; numeric fields use `ℚ` (the spec states exact arithmetic laws, so
exact rationals stand in for floats).  Pixel payloads are abstracted to a
list of bytes; PIL's `convert` changes the mode tag (the pixel re-encoding
itself is irrelevant to every claim, which concern only channel counts and
data flow).
-/

namespace VibraFrame

/-- JSON values, as produced by the handler's Python dict returns. -/
inductive Json where
  | bool (b : Bool)
  | num (q : ℚ)
  | str (s : String)
  | obj (fields : List (String × Json))

/-- A multipart upload: declared content-type header (absent ⇒ `none`,
mirroring starlette's `UploadFile.content_type` being `None`) and raw body. -/
structure Upload where
  contentType : Option String
  body : List Nat

/-- A decoded PIL image: color-mode tag plus abstract pixel payload. -/
structure PILImage where
  mode : String
  width : Nat
  height : Nat
  pixels : List Nat

/-- Python's `s.startswith(pre)`. -/
def pyStartsWith (s pre : String) : Bool :=
  pre.data.isPrefixOf s.data

/-- Channel count of a PIL color mode (the number of bands `np.array` yields
as the third axis).  Only `"RGB" ↦ 3` matters to the claims. -/
def channelsOfMode : String → Nat
  | "RGB" => 3
  | "RGBA" => 4
  | "CMYK" => 4
  | "YCbCr" => 3
  | "LA" => 2
  | _ => 1

/-- `Image.convert(m)`: returns an image in mode `m` (pixel re-encoding
abstracted away). -/
def PILImage.convert (img : PILImage) (m : String) : PILImage :=
  ⟨m, img.width, img.height, img.pixels⟩

/-- The conversion step of the handler: `if image.mode != "RGB": image =
image.convert("RGB")`. -/
def toRGB (img : PILImage) : PILImage :=
  if img.mode ≠ "RGB" then img.convert "RGB" else img

/-- `np.array(image)`: a numpy pixel buffer with `shape = (height, width,
channels)`. -/
structure NDArray where
  height : Nat
  width : Nat
  channels : Nat
  data : List Nat

/-- `np.array` on a PIL image. -/
def npArray (img : PILImage) : NDArray :=
  ⟨img.height, img.width, channelsOfMode img.mode, img.pixels⟩

/-- A mediapipe relative bounding box, fields in fractions of the image. -/
structure RelativeBoundingBox where
  xmin : ℚ
  ymin : ℚ
  width : ℚ
  height : ℚ

/-- `detection.location_data`. -/
structure LocationData where
  relative_bounding_box : RelativeBoundingBox

/-- One mediapipe detection. -/
structure Detection where
  location_data : LocationData

/-- The external capabilities the handler calls, each fallible with an
exception message.  `detect` models
`FaceDetection(model_selection, min_detection_confidence).process(buf)`,
taking the two constructor parameters and the pixel buffer and returning the
`results.detections` sequence (mediapipe's falsy `None` and `[]` both map to
`[]`). -/
structure Env where
  read : List Nat → Except String (List Nat)
  imageOpen : List Nat → Except String PILImage
  detect : Nat → ℚ → NDArray → Except String (List Detection)

/-- The response-mapping tail of the handler: from the detection list to the
returned JSON body (lines 49–73 of `main.py`). -/
def respondDetections (detections : List Detection) : Json :=
  match detections with
  | [] => Json.obj [("ok", Json.bool true), ("found", Json.bool false)]
  | detection :: _ =>
    let bbox := detection.location_data.relative_bounding_box
    let face_cx := bbox.xmin + bbox.width / 2
    let face_cy := bbox.ymin + bbox.height / 2
    Json.obj [("ok", Json.bool true), ("found", Json.bool true),
      ("face", Json.obj [("x", Json.num face_cx), ("y", Json.num face_cy),
                         ("w", Json.num bbox.width),
                         ("h", Json.num bbox.height)])]

/-- The body of the `try:` block (lines 31–73): read, decode, convert to RGB,
run detection, map the result.  An `Except.error` is an exception reaching
the `except` clause. -/
def processUpload (env : Env) (file : Upload) : Except String Json :=
  match env.read file.body with
  | Except.error e => Except.error e
  | Except.ok contents =>
    match env.imageOpen contents with
    | Except.error e => Except.error e
    | Except.ok image =>
      let image := toRGB image
      let img_np := npArray image
      match env.detect 1 (0.5 : ℚ) img_np with
      | Except.error e => Except.error e
      | Except.ok detections => Except.ok (respondDetections detections)

/-- Result of one request as the framework sees it: a normal HTTP response
(also `HTTPException`, which FastAPI renders as its status code with a
`detail` body), or an exception escaping the handler (rendered by the
framework as a 500, outside the handler's control). -/
inductive HandlerResult where
  | http (status : Nat) (body : Json)
  | crash (msg : String)

/-- The `POST /detect-face` handler (lines 26–77).  A `none` content-type
makes `file.content_type.startswith("image/")` raise `AttributeError` before
the `try:` block, so the handler crashes. -/
def detect_face (env : Env) (file : Upload) : HandlerResult :=
  match file.contentType with
  | none => HandlerResult.crash
      "AttributeError: NoneType object has no attribute startswith"
  | some ct =>
    if pyStartsWith ct "image/" = false then
      HandlerResult.http 400 (Json.obj [("detail",
        Json.str "File must be an image")])
    else
      match processUpload env file with
      | Except.ok body => HandlerResult.http 200 body
      | Except.error e => HandlerResult.http 200
          (Json.obj [("ok", Json.bool false), ("error", Json.str e)])

/-- The `GET /` handler (lines 21–23). -/
def read_root : Json :=
  Json.obj [("status", Json.str "ok"),
            ("service", Json.str "VibraFrame Face Detection")]

/-- Sequential stateless serving: the service handles each request with the
handler alone, carrying no state between requests. -/
def serve (env : Env) (uploads : List Upload) : List HandlerResult :=
  uploads.map (detect_face env)

/-! ### Concrete external environments, used to instantiate the theorems -/

/-- An environment whose externals all succeed: reading returns the body,
decoding yields a 4×4 RGB image, detection returns the given list. -/
def mkEnv (ds : List Detection) : Env :=
  ⟨fun b => Except.ok b,
   fun c => Except.ok ⟨"RGB", 4, 4, c⟩,
   fun _ _ _ => Except.ok ds⟩

/-- An environment whose decode step raises an exception with message `m`. -/
def envRaise (m : String) : Env :=
  ⟨fun b => Except.ok b,
   fun _ => Except.error m,
   fun _ _ _ => Except.ok []⟩

/-! ### Helper lemmas -/

/-- The buffer built from any decoded image after the RGB-conversion step has
exactly three channels. -/
theorem npArray_toRGB_channels (img : PILImage) :
    (npArray (toRGB img)).channels = 3 := by
  by_cases h : img.mode = "RGB" <;>
    simp [toRGB, h, npArray, PILImage.convert, channelsOfMode]

/-! ### Claims -/

/-- C1: for every upload whose declared content-type does not start with
`"image/"`, the response is HTTP 400 with detail `"File must be an image"`,
for every body and every environment of externals (so the result is
independent of read, decode and detection — none of them can influence it). -/
theorem detect_face_bad_content_type_400 (env : Env) (ct : String)
    (body : List Nat) (h : pyStartsWith ct "image/" = false) :
    detect_face env ⟨some ct, body⟩ =
      HandlerResult.http 400
        (Json.obj [("detail", Json.str "File must be an image")]) := by
  simp [detect_face, h]

/-- C1 witness: a `text/plain` upload gets the 400 response. -/
theorem detect_face_bad_content_type_400_witness :
    pyStartsWith "text/plain" "image/" = false ∧
    detect_face (mkEnv []) ⟨some "text/plain", [0, 1, 2]⟩ =
      HandlerResult.http 400
        (Json.obj [("detail", Json.str "File must be an image")]) :=
  ⟨by decide,
   detect_face_bad_content_type_400 (mkEnv []) "text/plain" [0, 1, 2]
     (by decide)⟩

/-- C3: when detection returns zero detections on a successfully read and
decoded upload, the response is exactly
`200 {ok: true, found: false}` — an object with those two fields and none
other (in particular no `face` field). -/
theorem detect_face_no_detections (env : Env) (ct : String) (body : List Nat)
    (contents : List Nat) (img : PILImage)
    (hct : pyStartsWith ct "image/" = true)
    (hr : env.read body = Except.ok contents)
    (ho : env.imageOpen contents = Except.ok img)
    (hd : env.detect 1 (0.5 : ℚ) (npArray (toRGB img)) = Except.ok []) :
    detect_face env ⟨some ct, body⟩ =
      HandlerResult.http 200
        (Json.obj [("ok", Json.bool true), ("found", Json.bool false)]) := by
  simp [detect_face, hct, processUpload, hr, ho, hd, respondDetections]

/-- C3 witness: concrete upload in an environment with no detections. -/
theorem detect_face_no_detections_witness :
    detect_face (mkEnv []) ⟨some "image/png", [5]⟩ =
      HandlerResult.http 200
        (Json.obj [("ok", Json.bool true), ("found", Json.bool false)]) :=
  detect_face_no_detections (mkEnv []) "image/png" [5] [5] ⟨"RGB", 4, 4, [5]⟩
    (by decide) rfl rfl rfl

/-- C9: `GET /` returns exactly the static status payload; being a constant
of the embedding, it admits no input and no variation across calls. -/
theorem read_root_static :
    read_root = Json.obj [("status", Json.str "ok"),
      ("service", Json.str "VibraFrame Face Detection")] := rfl

/-- C10: an upload with no declared content-type (`None`) makes the
precondition check itself raise before the `try:` block: the handler
produces neither the 400 response nor any 200 response, so the error
handling is not total over all uploads. -/
theorem detect_face_none_content_type_crashes (env : Env) (body : List Nat) :
    detect_face env ⟨none, body⟩ =
      HandlerResult.crash
        "AttributeError: NoneType object has no attribute startswith" ∧
    ∀ s j, detect_face env ⟨none, body⟩ ≠ HandlerResult.http s j := by
  constructor
  · simp [detect_face]
  · intro s j h
    simp [detect_face] at h

/-- C2 (amended): every exception raised inside the processing pipeline is
caught and returned as `200 {ok: false, error: e}` where `e` is the
exception's message (so the error string is non-empty exactly when the
message is), and a request passing the content-type check always gets some
HTTP 200 response — never a server error. -/
theorem detect_face_processing_error_200 (env : Env) (ct : String)
    (body : List Nat) (hct : pyStartsWith ct "image/" = true) :
    (∀ e, processUpload env ⟨some ct, body⟩ = Except.error e →
      detect_face env ⟨some ct, body⟩ =
        HandlerResult.http 200
          (Json.obj [("ok", Json.bool false), ("error", Json.str e)])) ∧
    ∃ j, detect_face env ⟨some ct, body⟩ = HandlerResult.http 200 j := by
  constructor
  · intro e he
    simp [detect_face, hct, he]
  · cases hp : processUpload env ⟨some ct, body⟩ with
    | ok j => exact ⟨j, by simp [detect_face, hct, hp]⟩
    | error e =>
      exact ⟨Json.obj [("ok", Json.bool false), ("error", Json.str e)],
        by simp [detect_face, hct, hp]⟩

/-- C2 witness: a decode failure with message `"boom"` is surfaced as
`200 {ok: false, error: "boom"}`. -/
theorem detect_face_processing_error_200_witness :
    detect_face (envRaise "boom") ⟨some "image/png", [0]⟩ =
      HandlerResult.http 200
        (Json.obj [("ok", Json.bool false), ("error", Json.str "boom")]) :=
  (detect_face_processing_error_200 (envRaise "boom") "image/png" [0]
    (by decide)).1 "boom" rfl

/-- C2 counterexample: an exception whose message is the empty string is
surfaced as `200 {ok: false, error: ""}`, so the returned error string is
empty, refuting the claim's "non-empty error string". -/
theorem detect_face_empty_error_string :
    detect_face (envRaise "") ⟨some "image/png", [0]⟩ =
      HandlerResult.http 200
        (Json.obj [("ok", Json.bool false), ("error", Json.str "")]) ∧
    ("" : String).length = 0 := by
  constructor
  · have hct : pyStartsWith "image/png" "image/" = true := by decide
    simp [detect_face, hct, processUpload, envRaise]
  · rfl

/-- C4: the face payload of the first detection is
`x = xmin + width/2`, `y = ymin + height/2`, `w = width`, `h = height`. -/
theorem detect_face_center_mapping (env : Env) (ct : String) (body : List Nat)
    (contents : List Nat) (img : PILImage) (d : Detection)
    (rest : List Detection)
    (hct : pyStartsWith ct "image/" = true)
    (hr : env.read body = Except.ok contents)
    (ho : env.imageOpen contents = Except.ok img)
    (hd : env.detect 1 (0.5 : ℚ) (npArray (toRGB img)) =
      Except.ok (d :: rest)) :
    detect_face env ⟨some ct, body⟩ =
      HandlerResult.http 200
        (Json.obj [("ok", Json.bool true), ("found", Json.bool true),
          ("face", Json.obj
            [("x", Json.num (d.location_data.relative_bounding_box.xmin +
                d.location_data.relative_bounding_box.width / 2)),
             ("y", Json.num (d.location_data.relative_bounding_box.ymin +
                d.location_data.relative_bounding_box.height / 2)),
             ("w", Json.num d.location_data.relative_bounding_box.width),
             ("h", Json.num d.location_data.relative_bounding_box.height)])]) := by
  simp [detect_face, hct, processUpload, hr, ho, hd, respondDetections]

/-- C4 witness: the spec's concrete instance — bounding box
`xmin = 0.2, ymin = 0.3, width = 0.1, height = 0.2` yields
`x = 0.25, y = 0.4, w = 0.1, h = 0.2`. -/
theorem detect_face_center_mapping_witness :
    detect_face (mkEnv [⟨⟨⟨0.2, 0.3, 0.1, 0.2⟩⟩⟩]) ⟨some "image/png", [7]⟩ =
      HandlerResult.http 200
        (Json.obj [("ok", Json.bool true), ("found", Json.bool true),
          ("face", Json.obj
            [("x", Json.num 0.25), ("y", Json.num 0.4),
             ("w", Json.num 0.1), ("h", Json.num 0.2)])]) := by
  have h := detect_face_center_mapping (mkEnv [⟨⟨⟨0.2, 0.3, 0.1, 0.2⟩⟩⟩])
    "image/png" [7] [7] ⟨"RGB", 4, 4, [7]⟩ ⟨⟨⟨0.2, 0.3, 0.1, 0.2⟩⟩⟩ []
    (by decide) rfl rfl rfl
  rw [h]
  norm_num

/-- C5 counterexample: a detection whose bounding-box fields all lie in
[0, 1] (`xmin = 0.9, ymin = 0.3, width = 0.9, height = 0.2`) yields
`face.x = 1.35`, which is outside [0, 1] — refuting the claim that the
hypothesis "each field in [0, 1]" suffices for the face fields to stay in
[0, 1]. -/
theorem detect_face_center_out_of_range :
    ((0 : ℚ) ≤ 0.9 ∧ (0.9 : ℚ) ≤ 1 ∧ (0 : ℚ) ≤ 0.3 ∧ (0.3 : ℚ) ≤ 1 ∧
      (0 : ℚ) ≤ 0.2 ∧ (0.2 : ℚ) ≤ 1) ∧
    detect_face (mkEnv [⟨⟨⟨0.9, 0.3, 0.9, 0.2⟩⟩⟩]) ⟨some "image/png", [7]⟩ =
      HandlerResult.http 200
        (Json.obj [("ok", Json.bool true), ("found", Json.bool true),
          ("face", Json.obj
            [("x", Json.num 1.35), ("y", Json.num 0.4),
             ("w", Json.num 0.9), ("h", Json.num 0.2)])]) ∧
    ¬ ((1.35 : ℚ) ≤ 1) := by
  refine ⟨by norm_num, ?_, by norm_num⟩
  have hct : pyStartsWith "image/png" "image/" = true := by decide
  simp [detect_face, hct, processUpload, mkEnv, respondDetections]
  norm_num

/-- C5 (amended): when the first detection's bounding box has nonnegative
fields and fits inside the unit square (`xmin + width ≤ 1`,
`ymin + height ≤ 1`), the response has `found: true` and each face field
lies in [0, 1]. -/
theorem detect_face_face_in_unit_square (env : Env) (ct : String)
    (body contents : List Nat) (img : PILImage) (xm ym wd ht : ℚ)
    (rest : List Detection)
    (hct : pyStartsWith ct "image/" = true)
    (hr : env.read body = Except.ok contents)
    (ho : env.imageOpen contents = Except.ok img)
    (hd : env.detect 1 (0.5 : ℚ) (npArray (toRGB img)) =
      Except.ok (⟨⟨⟨xm, ym, wd, ht⟩⟩⟩ :: rest))
    (hx0 : 0 ≤ xm) (hy0 : 0 ≤ ym) (hw0 : 0 ≤ wd) (hh0 : 0 ≤ ht)
    (hxw : xm + wd ≤ 1) (hyh : ym + ht ≤ 1) :
    detect_face env ⟨some ct, body⟩ =
      HandlerResult.http 200
        (Json.obj [("ok", Json.bool true), ("found", Json.bool true),
          ("face", Json.obj
            [("x", Json.num (xm + wd / 2)), ("y", Json.num (ym + ht / 2)),
             ("w", Json.num wd), ("h", Json.num ht)])]) ∧
    0 ≤ xm + wd / 2 ∧ xm + wd / 2 ≤ 1 ∧ 0 ≤ ym + ht / 2 ∧ ym + ht / 2 ≤ 1 ∧
    0 ≤ wd ∧ wd ≤ 1 ∧ 0 ≤ ht ∧ ht ≤ 1 := by
  refine ⟨?_, by linarith, by linarith, by linarith, by linarith, hw0,
    by linarith, hh0, by linarith⟩
  simp [detect_face, hct, processUpload, hr, ho, hd, respondDetections]

/-- C5 witness: bounding box `(0.25, 0.25, 0.5, 0.5)` fits in the unit
square and yields face fields inside [0, 1]. -/
theorem detect_face_face_in_unit_square_witness :
    detect_face (mkEnv [⟨⟨⟨0.25, 0.25, 0.5, 0.5⟩⟩⟩] )
        ⟨some "image/png", [3]⟩ =
      HandlerResult.http 200
        (Json.obj [("ok", Json.bool true), ("found", Json.bool true),
          ("face", Json.obj
            [("x", Json.num ((0.25 : ℚ) + (0.5 : ℚ) / 2)),
             ("y", Json.num ((0.25 : ℚ) + (0.5 : ℚ) / 2)),
             ("w", Json.num 0.5), ("h", Json.num 0.5)])]) ∧
    0 ≤ (0.25 : ℚ) + (0.5 : ℚ) / 2 ∧ (0.25 : ℚ) + (0.5 : ℚ) / 2 ≤ 1 ∧
    0 ≤ (0.25 : ℚ) + (0.5 : ℚ) / 2 ∧ (0.25 : ℚ) + (0.5 : ℚ) / 2 ≤ 1 ∧
    0 ≤ (0.5 : ℚ) ∧ (0.5 : ℚ) ≤ 1 ∧ 0 ≤ (0.5 : ℚ) ∧ (0.5 : ℚ) ≤ 1 :=
  detect_face_face_in_unit_square (mkEnv [⟨⟨⟨0.25, 0.25, 0.5, 0.5⟩⟩⟩])
    "image/png" [3] [3] ⟨"RGB", 4, 4, [3]⟩ 0.25 0.25 0.5 0.5 []
    (by decide) rfl rfl rfl (by norm_num) (by norm_num) (by norm_num)
    (by norm_num) (by norm_num) (by norm_num)

/-- Helper for C6: the processing pipeline gives equal results in two
environments that read and decode identically and whose detection results
are nonempty with the same first detection. -/
theorem processUpload_first_only (e1 e2 : Env) (u : Upload)
    (hr : e1.read = e2.read) (ho : e1.imageOpen = e2.imageOpen)
    (hd : ∀ ms mc buf, ∃ d t1 t2,
      e1.detect ms mc buf = Except.ok (d :: t1) ∧
      e2.detect ms mc buf = Except.ok (d :: t2)) :
    processUpload e1 u = processUpload e2 u := by
  unfold processUpload
  rw [← hr, ← ho]
  cases hc : e1.read u.body with
  | error e => rfl
  | ok contents =>
    cases hi : e1.imageOpen contents with
    | error e => simp [hi]
    | ok image =>
      obtain ⟨d, t1, t2, h1, h2⟩ := hd 1 (0.5 : ℚ) (npArray (toRGB image))
      simp [hi, h1, h2, respondDetections]

/-- C6: two runs whose detection capabilities return nonempty sequences with
the same first detection (reading and decoding unchanged) produce identical
responses — the handler uses only the first detection and applies no
reselection, ranking, or confidence comparison over later detections. -/
theorem detect_face_first_detection_only (e1 e2 : Env) (u : Upload)
    (hr : e1.read = e2.read) (ho : e1.imageOpen = e2.imageOpen)
    (hd : ∀ ms mc buf, ∃ d t1 t2,
      e1.detect ms mc buf = Except.ok (d :: t1) ∧
      e2.detect ms mc buf = Except.ok (d :: t2)) :
    detect_face e1 u = detect_face e2 u := by
  obtain ⟨oc, body⟩ := u
  have hp := processUpload_first_only e1 e2 ⟨oc, body⟩ hr ho hd
  cases oc with
  | none => rfl
  | some ct =>
    simp only [detect_face]
    rw [hp]

/-- C6 witness: dropping a second detection does not change the response. -/
theorem detect_face_first_detection_only_witness :
    detect_face
        (mkEnv [⟨⟨⟨0.1, 0.2, 0.3, 0.4⟩⟩⟩, ⟨⟨⟨0.5, 0.5, 0.1, 0.1⟩⟩⟩])
        ⟨some "image/jpeg", [9]⟩ =
      detect_face (mkEnv [⟨⟨⟨0.1, 0.2, 0.3, 0.4⟩⟩⟩])
        ⟨some "image/jpeg", [9]⟩ :=
  detect_face_first_detection_only
    (mkEnv [⟨⟨⟨0.1, 0.2, 0.3, 0.4⟩⟩⟩, ⟨⟨⟨0.5, 0.5, 0.1, 0.1⟩⟩⟩])
    (mkEnv [⟨⟨⟨0.1, 0.2, 0.3, 0.4⟩⟩⟩]) ⟨some "image/jpeg", [9]⟩ rfl rfl
    (fun _ _ _ => ⟨⟨⟨⟨0.1, 0.2, 0.3, 0.4⟩⟩⟩, [⟨⟨⟨0.5, 0.5, 0.1, 0.1⟩⟩⟩],
      [], rfl, rfl⟩)

/-- C7: the buffer built for detection always has exactly 3 channels (the
image is converted to RGB when its mode is not RGB), and consequently the
handler's behavior is unchanged if the detection capability is replaced by
one that fails on every buffer whose channel count is not 3 — detection is
never invoked on a grayscale or alpha-bearing buffer. -/
theorem detect_face_rgb_buffer (img : PILImage) (env : Env) (u : Upload)
    (msg : String) :
    (npArray (toRGB img)).channels = 3 ∧
    detect_face env u =
      detect_face ⟨env.read, env.imageOpen,
        fun ms mc buf =>
          if buf.channels = 3 then env.detect ms mc buf
          else Except.error msg⟩ u := by
  refine ⟨npArray_toRGB_channels img, ?_⟩
  obtain ⟨oc, body⟩ := u
  cases oc with
  | none => rfl
  | some ct =>
    simp only [detect_face]
    have hp : processUpload env ⟨some ct, body⟩ =
        processUpload ⟨env.read, env.imageOpen,
          fun ms mc buf =>
            if buf.channels = 3 then env.detect ms mc buf
            else Except.error msg⟩ ⟨some ct, body⟩ := by
      unfold processUpload
      cases hc : env.read body with
      | error e => rfl
      | ok contents =>
        cases hi : env.imageOpen contents with
        | error e => simp [hi]
        | ok image => simp [hi, npArray_toRGB_channels image]
    rw [hp]

/-- C8: the handler is a pure function of the environment and the upload,
with no state threaded between requests: in any request sequence, two
identical uploads receive identical responses (same `found` value and
numerically identical face fields). -/
theorem serve_idempotent (env : Env) (us : List Upload) (i j : Nat)
    (hi : i < us.length) (hj : j < us.length) (h : us[i] = us[j]) :
    (serve env us)[i]? = (serve env us)[j]? := by
  simp [serve, List.getElem?_map, List.getElem?_eq_getElem, hi, hj, h]

/-- C8 witness: the same upload issued twice in a row gets the same
response. -/
theorem serve_idempotent_witness :
    (serve (mkEnv []) [⟨some "image/png", [1]⟩,
      ⟨some "image/png", [1]⟩])[0]? =
    (serve (mkEnv []) [⟨some "image/png", [1]⟩,
      ⟨some "image/png", [1]⟩])[1]? :=
  serve_idempotent (mkEnv [])
    [⟨some "image/png", [1]⟩, ⟨some "image/png", [1]⟩] 0 1
    (by decide) (by decide) rfl

end VibraFrame
